import Mathlib

/-!
Verification of the car-search server (`src/server/car-api.ts`,
`src/server/routes.ts`) against its design note.  The TypeScript code is
embedded shallowly: the pseudo-random draws that `Math.random()` supplies are
passed in explicitly as a `RandDraw` (one draw record per mapped car), the
wall clock is a `Nat` parameter, and the upstream HTTP transport is an
`Option` argument (`none` = the call fails and the fallback path runs).
-/

namespace CarApi

/-- Lower-case a string character by character (JS `toLowerCase` on the
ASCII data this program handles). -/
def strLower (s : String) : String :=
  String.mk (s.data.map Char.toLower)

/-- JS `String.prototype.includes`: `pat` occurs contiguously in `s`. -/
def strContains (s pat : String) : Bool :=
  s.data.tails.any fun t => pat.data.isPrefixOf t

/-- JS `String.prototype.trim`: strip whitespace from both ends. -/
def strTrim (s : String) : String :=
  String.mk (((s.data.dropWhile Char.isWhitespace).reverse.dropWhile
    Char.isWhitespace).reverse)

/-- Split a character list at every space, JS `split(' ')` (consecutive
separators yield empty words, as in JS). -/
def splitOnSpace (l : List Char) : List (List Char) :=
  l.foldr
    (fun ch acc =>
      if ch = ' ' then [] :: acc
      else
        match acc with
        | [] => [[ch]]
        | w :: ws => (ch :: w) :: ws)
    [[]]

/-- The words of a string under JS `split(' ')`. -/
def wordsOf (s : String) : List String :=
  (splitOnSpace s.data).map String.mk

/-- A raw record as the upstream API (or the fallback generator) supplies it:
`{make, model, year, type?}`. -/
structure ApiCar where
  make : String
  model : String
  year : Int
  type : Option String
deriving DecidableEq

/-- The pseudo-random draws `mapApiCarToCar` consumes for one car, one field
per `Math.random()` call site.  Each raw draw is an arbitrary `Nat`; the
mapper reduces it into the range the source requests. -/
structure RandDraw where
  priceRand : Nat
  fuelRand : Nat
  transRand : Nat
  mileageRand : Nat
deriving DecidableEq

/-- The application's car record (`Car` of `@shared/schema` as
`mapApiCarToCar` populates it). -/
structure Car where
  id : Nat
  brand : String
  model : String
  year : Int
  price : Int
  fuelType : String
  transmission : String
  seatingCapacity : Nat
  mileage : Nat
  bodyType : Option String
  description : String
  imageUrl : String
deriving DecidableEq

/-- `const fuelTypes = ['Petrol', 'Diesel', 'Electric', 'Hybrid']`. -/
def fuelTypeChoices : List String := ["Petrol", "Diesel", "Electric", "Hybrid"]

/-- `const transmissions = ['Automatic', 'Manual']`. -/
def transmissionChoices : List String := ["Automatic", "Manual"]

/-- `apiCar.type?.toLowerCase().includes(pat)` (false when `type` is null). -/
def typeContains (t : Option String) (pat : String) : Bool :=
  match t with
  | some s => strContains (strLower s) pat
  | none => false

/-- The static brand → image URL table of `mapApiCarToCar`. -/
def imageUrls : List (String × String) := [
  ("Toyota", "https://images.pexels.com/photos/112460/pexels-photo-112460.jpeg"),
  ("Honda", "https://images.pexels.com/photos/210019/pexels-photo-210019.jpeg"),
  ("Nissan", "https://images.pexels.com/photos/1149137/pexels-photo-1149137.jpeg"),
  ("Suzuki", "https://images.pexels.com/photos/170811/pexels-photo-170811.jpeg"),
  ("Lexus", "https://images.pexels.com/photos/248687/pexels-photo-248687.jpeg"),
  ("Acura", "https://images.pexels.com/photos/248747/pexels-photo-248747.jpeg"),
  ("Mazda", "https://images.pexels.com/photos/1082655/pexels-photo-1082655.jpeg"),
  ("Mitsubishi", "https://images.pexels.com/photos/116675/pexels-photo-116675.jpeg"),
  ("Subaru", "https://images.pexels.com/photos/707046/pexels-photo-707046.jpeg"),
  ("Infiniti", "https://images.pexels.com/photos/210019/pexels-photo-210019.jpeg"),
  ("Ford", "https://images.pexels.com/photos/116675/pexels-photo-116675.jpeg"),
  ("Chevrolet", "https://images.pexels.com/photos/337909/pexels-photo-337909.jpeg"),
  ("Tesla", "https://images.pexels.com/photos/3729464/pexels-photo-3729464.jpeg"),
  ("Cadillac", "https://images.pexels.com/photos/170811/pexels-photo-170811.jpeg"),
  ("Jeep", "https://images.pexels.com/photos/119435/pexels-photo-119435.jpeg"),
  ("Dodge", "https://images.pexels.com/photos/112460/pexels-photo-112460.jpeg"),
  ("Chrysler", "https://images.pexels.com/photos/210019/pexels-photo-210019.jpeg"),
  ("GMC", "https://images.pexels.com/photos/116675/pexels-photo-116675.jpeg"),
  ("Buick", "https://images.pexels.com/photos/35967/mini-cooper-auto-model-vehicle.jpg"),
  ("Lincoln", "https://images.pexels.com/photos/170811/pexels-photo-170811.jpeg"),
  ("BMW", "https://images.pexels.com/photos/100656/pexels-photo-100656.jpeg"),
  ("Mercedes", "https://images.pexels.com/photos/120049/pexels-photo-120049.jpeg"),
  ("Audi", "https://images.pexels.com/photos/244206/pexels-photo-244206.jpeg"),
  ("Volkswagen", "https://images.pexels.com/photos/1164778/pexels-photo-1164778.jpeg"),
  ("Porsche", "https://images.pexels.com/photos/3802510/pexels-photo-3802510.jpeg"),
  ("Jaguar", "https://images.pexels.com/photos/136872/pexels-photo-136872.jpeg"),
  ("Land Rover", "https://images.pexels.com/photos/1638459/pexels-photo-1638459.jpeg"),
  ("Volvo", "https://images.pexels.com/photos/1335077/pexels-photo-1335077.jpeg"),
  ("Ferrari", "https://images.pexels.com/photos/337909/pexels-photo-337909.jpeg"),
  ("Lamborghini", "https://images.pexels.com/photos/3802510/pexels-photo-3802510.jpeg"),
  ("Hyundai", "https://images.pexels.com/photos/627678/pexels-photo-627678.jpeg"),
  ("Kia", "https://images.pexels.com/photos/1035108/pexels-photo-1035108.jpeg"),
  ("Genesis", "https://images.pexels.com/photos/248747/pexels-photo-248747.jpeg"),
  ("Mahindra", "https://images.pexels.com/photos/1638459/pexels-photo-1638459.jpeg"),
  ("Tata", "https://images.pexels.com/photos/112460/pexels-photo-112460.jpeg"),
  ("Maruti Suzuki", "https://images.pexels.com/photos/170811/pexels-photo-170811.jpeg"),
  ("Force Motors", "https://images.pexels.com/photos/116675/pexels-photo-116675.jpeg"),
  ("Hindustan Motors", "https://images.pexels.com/photos/210019/pexels-photo-210019.jpeg")]

/-- The placeholder image used for a brand the table does not know. -/
def defaultImageUrl : String :=
  "https://images.pexels.com/photos/3166786/pexels-photo-3166786.jpeg"

/-- JS `apiCar.type || null`: a missing or empty (falsy) type string is
coerced to null. -/
def typeOrNull (t : Option String) : Option String :=
  match t with
  | some s => if s = "" then none else some s
  | none => none

/-- JS `apiCar.type || d`: a missing or empty (falsy) type string is
replaced by the default. -/
def typeOrDefault (t : Option String) (d : String) : String :=
  match t with
  | some s => if s = "" then d else s
  | none => d

/-- `mapApiCarToCar(apiCar, index)` of `car-api.ts`: converts a raw upstream
or fallback record into the application car record.  `r` carries the draws of
the four `Math.random()` call sites (price, fuel type, transmission,
mileage), each reduced into the range the source draws from. -/
def mapApiCarToCar (apiCar : ApiCar) (index : Nat) (r : RandDraw) : Car :=
  let basePrice : Int := 10000
  let yearFactor : Int := (apiCar.year - 2000) * 1000
  let randomFactor : Int := ((r.priceRand % 5000 : Nat) : Int)
  let price : Int := basePrice + yearFactor + randomFactor
  let fuelType := fuelTypeChoices.getD (r.fuelRand % fuelTypeChoices.length) "Petrol"
  let transmission :=
    transmissionChoices.getD (r.transRand % transmissionChoices.length) "Automatic"
  let seatingCapacity : Nat :=
    if typeContains apiCar.type "suv" then 7
    else if typeContains apiCar.type "coupe" || typeContains apiCar.type "convertible" then 2
    else 5
  let imageUrl := (imageUrls.lookup apiCar.make).getD defaultImageUrl
  { id := index + 1
    brand := apiCar.make
    model := apiCar.model
    year := apiCar.year
    price := price
    fuelType := fuelType
    transmission := transmission
    seatingCapacity := seatingCapacity
    mileage := r.mileageRand % 100000
    bodyType := typeOrNull apiCar.type
    description :=
      toString apiCar.year ++ " " ++ apiCar.make ++ " " ++ apiCar.model ++ " - "
        ++ typeOrDefault apiCar.type "Sedan" ++ ". Fuel type: " ++ fuelType
        ++ ", Transmission: " ++ transmission ++ "."
    imageUrl := imageUrl }

/-- The popular-brands list the fallback path uses when no brand was
requested (`searchCars`, fallback branch). -/
def popularBrands : List String := [
  "Toyota", "Honda", "Ford", "BMW", "Mercedes", "Audi", "Tesla", "Nissan", "Suzuki",
  "Mahindra", "Tata", "Volkswagen", "Maruti Suzuki", "Jeep", "Kia", "Hyundai"]

/-- The static brand → models table of the fallback branch of `searchCars`. -/
def fallbackModelsTable : List (String × List String) := [
  ("Toyota", ["Camry", "Corolla", "RAV4", "Highlander", "Supra", "Land Cruiser", "Yaris",
    "Prius", "Avalon", "Venza", "Sienna"]),
  ("Honda", ["Civic", "Accord", "CR-V", "Pilot", "Fit", "HR-V", "Odyssey", "Insight",
    "Ridgeline", "Passport"]),
  ("Nissan", ["Altima", "Maxima", "Rogue", "Pathfinder", "GTR", "370Z", "Leaf", "Sentra",
    "Murano", "Kicks", "Frontier", "Titan"]),
  ("Suzuki", ["Swift", "Vitara", "Jimny", "S-Cross", "Ignis", "Baleno", "Ciaz", "Ertiga",
    "XL6", "Dzire", "Alto"]),
  ("Mazda", ["Mazda3", "Mazda6", "CX-3", "CX-30", "CX-5", "CX-9", "MX-5 Miata", "RX-8", "RX-7"]),
  ("Mitsubishi", ["Outlander", "Eclipse Cross", "Mirage", "Pajero", "Lancer", "Evolution",
    "Montero"]),
  ("Subaru", ["Impreza", "Legacy", "Outback", "Forester", "Crosstrek", "WRX", "STI", "BRZ"]),
  ("Lexus", ["ES", "IS", "LS", "RX", "GX", "LX", "LC", "RC", "NX", "UX", "GS"]),
  ("Acura", ["ILX", "TLX", "RDX", "MDX", "NSX", "RSX", "TSX", "RLX"]),
  ("Infiniti", ["Q50", "Q60", "QX50", "QX60", "QX80", "G35", "G37", "FX35"]),
  ("Ford", ["F-150", "Escape", "Explorer", "Mustang", "Focus", "Ranger", "Bronco", "Edge",
    "Expedition", "Maverick", "EcoSport", "Mach-E"]),
  ("Chevrolet", ["Malibu", "Impala", "Equinox", "Tahoe", "Silverado", "Corvette", "Camaro",
    "Suburban", "Blazer", "Traverse", "Colorado", "Bolt"]),
  ("Tesla", ["Model 3", "Model S", "Model X", "Model Y", "Cybertruck", "Roadster", "Semi"]),
  ("Cadillac", ["CT4", "CT5", "XT4", "XT5", "XT6", "Escalade", "CTS", "ATS", "SRX", "Lyriq"]),
  ("Jeep", ["Wrangler", "Grand Cherokee", "Cherokee", "Compass", "Renegade", "Gladiator",
    "Wagoneer", "Commander"]),
  ("Dodge", ["Charger", "Challenger", "Durango", "Journey", "Viper", "RAM 1500", "RAM 2500"]),
  ("Chrysler", ["300", "Pacifica", "Voyager", "Town & Country", "PT Cruiser", "Sebring"]),
  ("GMC", ["Sierra", "Yukon", "Terrain", "Acadia", "Canyon", "Hummer EV", "Savana"]),
  ("Buick", ["Enclave", "Encore", "Envision", "Regal", "LaCrosse", "Verano"]),
  ("Lincoln", ["Navigator", "Aviator", "Corsair", "Nautilus", "MKZ", "Continental", "Town Car"]),
  ("BMW", ["3 Series", "5 Series", "X3", "X5", "M3", "M5", "i8", "7 Series", "X1", "X7",
    "Z4", "i4", "iX"]),
  ("Mercedes", ["C-Class", "E-Class", "GLC", "S-Class", "AMG GT", "G-Wagon", "EQS", "GLA",
    "GLE", "CLA", "A-Class", "SL"]),
  ("Audi", ["A4", "A6", "Q5", "Q7", "R8", "e-tron", "TT", "A3", "A8", "Q3", "Q8", "RS6", "S4"]),
  ("Volkswagen", ["Golf", "Passat", "Tiguan", "Atlas", "Jetta", "Arteon", "ID.4", "Taos",
    "Polo", "Touareg", "Beetle"]),
  ("Porsche", ["911", "Cayenne", "Macan", "Panamera", "Taycan", "Boxster", "Cayman", "718"]),
  ("Jaguar", ["F-Pace", "XF", "XE", "I-Pace", "F-Type", "XJ", "E-Pace"]),
  ("Land Rover", ["Range Rover", "Discovery", "Defender", "Evoque", "Velar", "Sport", "LR4"]),
  ("Volvo", ["XC90", "XC60", "XC40", "S60", "S90", "V60", "V90", "C40"]),
  ("Ferrari", ["Roma", "Portofino", "SF90", "F8", "812", "296", "LaFerrari"]),
  ("Lamborghini", ["Aventador", "Huracan", "Urus", "Revuelto", "Gallardo", "Murcielago",
    "Countach"]),
  ("Hyundai", ["Elantra", "Sonata", "Tucson", "Santa Fe", "Palisade", "Kona", "Ioniq",
    "Venue", "Accent", "Veloster", "Nexo", "Ioniq 5"]),
  ("Kia", ["Forte", "Optima", "Sportage", "Sorento", "Telluride", "Soul", "Stinger", "Niro",
    "Seltos", "K5", "EV6", "Rio"]),
  ("Genesis", ["G70", "G80", "G90", "GV70", "GV80", "GV60", "Electrified G80"]),
  ("Mahindra", ["XUV700", "Thar", "Scorpio", "XUV300", "Bolero", "Marazzo", "KUV100",
    "XUV500", "TUV300", "Alturas G4"]),
  ("Tata", ["Nexon", "Harrier", "Safari", "Punch", "Tiago", "Altroz", "Tigor", "Hexa",
    "Nano", "Sierra EV"]),
  ("Maruti Suzuki", ["Swift", "Baleno", "Brezza", "Dzire", "WagonR", "Alto", "Ertiga",
    "Ciaz", "S-Presso", "Celerio", "Jimny"]),
  ("Force Motors", ["Gurkha", "Trax", "Traveller", "Cruiser"]),
  ("Hindustan Motors", ["Ambassador", "Contessa"])]

/-- The models of one brand: table lookup, `[]` for an unrecognized brand
(`fallbackModels[brand] || []`). -/
def fallbackModels (brand : String) : List String :=
  (fallbackModelsTable.lookup brand).getD []

/-- The years the fallback generates per model together with their index in
the `years` array: `[currentYear, currentYear - 1, currentYear - 2]`. -/
def fallbackYears (currentYear : Int) : List (Int × Nat) :=
  [(currentYear, 0), (currentYear - 1, 1), (currentYear - 2, 2)]

/-- The `type` field the fallback passes to the mapper: the first requested
body type when any was requested, else Sedan for an even year index and SUV
for an odd one. -/
def fallbackType (bodyTypes : List String) (idx : Nat) : Option String :=
  match bodyTypes with
  | bt :: _ => some bt
  | [] => some (if idx % 2 = 0 then "Sedan" else "SUV")

/-- The raw records the fallback branch of `searchCars` generates, in
generation order (brand-major, model, then year). -/
def fallbackRaw (brands bodyTypes : List String) (currentYear : Int) : List ApiCar :=
  let brandsToFetch := if brands.isEmpty then popularBrands else brands
  brandsToFetch.flatMap fun brand =>
    (fallbackModels brand).flatMap fun model =>
      (fallbackYears currentYear).map fun yi =>
        { make := brand, model := model, year := yi.1, type := fallbackType bodyTypes yi.2 }

/-- Map raw records through `mapApiCarToCar` with their running index
(`cars.push(mapApiCarToCar(raw, cars.length))`), starting at `n`. -/
def indexedCarsFrom (rng : Nat → RandDraw) : Nat → List ApiCar → List Car
  | _, [] => []
  | n, a :: raws => mapApiCarToCar a n (rng n) :: indexedCarsFrom rng (n + 1) raws

/-- Map raw records through `mapApiCarToCar` with their position as index. -/
def indexedCars (rng : Nat → RandDraw) (raws : List ApiCar) : List Car :=
  indexedCarsFrom rng 0 raws

/-- The full car list the fallback branch produces. -/
def fallbackCars (brands bodyTypes : List String) (currentYear : Int)
    (rng : Nat → RandDraw) : List Car :=
  indexedCars rng (fallbackRaw brands bodyTypes currentYear)

/-- The parameter object of `searchCars`.  Absent array parameters are `[]`
(JS treats `undefined` and `[]` the same here); `sortBy`/`sortOrder` can be
handed over by the route but `searchCars` never reads them. -/
structure SearchParams where
  query : Option String := none
  brands : List String := []
  minPrice : Option Int := none
  maxPrice : Option Int := none
  fuelTypes : List String := []
  seatingCapacity : Option Nat := none
  bodyTypes : List String := []
  year : Option Int := none
  sortBy : Option String := none
  sortOrder : Option String := none
  limit : Nat := 10
  offset : Nat := 0

/-- The per-car predicate of the primary text pass. -/
def matchesText (searchTerm : String) (car : Car) : Bool :=
  let brand := strLower car.brand
  let model := strLower car.model
  let bodyType := strLower (car.bodyType.getD "")
  let fuelType := strLower car.fuelType
  let yearStr := toString car.year
  strContains brand searchTerm || strContains model searchTerm
    || strContains bodyType searchTerm || strContains fuelType searchTerm
    || strContains yearStr searchTerm
    || strContains (brand ++ " " ++ model) searchTerm

/-- The static specific-models table of the secondary text pass
(query token → "Brand Model" string). -/
def specificModels : List (String × String) := [
  ("gtr", "Nissan GTR"),
  ("skyline", "Nissan GTR"),
  ("swift", "Suzuki Swift"),
  ("civic", "Honda Civic"),
  ("accord", "Honda Accord"),
  ("corolla", "Toyota Corolla"),
  ("camry", "Toyota Camry"),
  ("supra", "Toyota Supra"),
  ("rx7", "Mazda RX-7"),
  ("miata", "Mazda MX-5 Miata"),
  ("lancer", "Mitsubishi Lancer"),
  ("evo", "Mitsubishi Evolution"),
  ("mustang", "Ford Mustang"),
  ("f150", "Ford F-150"),
  ("bronco", "Ford Bronco"),
  ("camaro", "Chevrolet Camaro"),
  ("corvette", "Chevrolet Corvette"),
  ("silverado", "Chevrolet Silverado"),
  ("tesla", "Tesla Model 3"),
  ("model3", "Tesla Model 3"),
  ("models", "Tesla Model S"),
  ("modelx", "Tesla Model X"),
  ("modely", "Tesla Model Y"),
  ("wrangler", "Jeep Wrangler"),
  ("cherokee", "Jeep Cherokee"),
  ("escalade", "Cadillac Escalade"),
  ("challenger", "Dodge Challenger"),
  ("charger", "Dodge Charger"),
  ("ram", "Dodge RAM 1500"),
  ("bmw", "BMW 3 Series"),
  ("911", "Porsche 911"),
  ("cayenne", "Porsche Cayenne"),
  ("benz", "Mercedes C-Class"),
  ("cclass", "Mercedes C-Class"),
  ("eclass", "Mercedes E-Class"),
  ("sclass", "Mercedes S-Class"),
  ("gwagon", "Mercedes G-Wagon"),
  ("a4", "Audi A4"),
  ("r8", "Audi R8"),
  ("tt", "Audi TT"),
  ("golf", "Volkswagen Golf"),
  ("jetta", "Volkswagen Jetta"),
  ("beetle", "Volkswagen Beetle"),
  ("ferrari", "Ferrari Roma"),
  ("lambo", "Lamborghini Aventador"),
  ("range rover", "Land Rover Range Rover"),
  ("discovery", "Land Rover Discovery"),
  ("defender", "Land Rover Defender"),
  ("sonata", "Hyundai Sonata"),
  ("elantra", "Hyundai Elantra"),
  ("tucson", "Hyundai Tucson"),
  ("santafe", "Hyundai Santa Fe"),
  ("telluride", "Kia Telluride"),
  ("k5", "Kia K5"),
  ("soul", "Kia Soul"),
  ("sportage", "Kia Sportage"),
  ("g70", "Genesis G70"),
  ("g80", "Genesis G80"),
  ("alto", "Maruti Suzuki Alto"),
  ("wagonr", "Maruti Suzuki WagonR"),
  ("brezza", "Maruti Suzuki Brezza"),
  ("dzire", "Maruti Suzuki Dzire"),
  ("baleno", "Suzuki Baleno"),
  ("thar", "Mahindra Thar"),
  ("scorpio", "Mahindra Scorpio"),
  ("xuv700", "Mahindra XUV700"),
  ("xuv500", "Mahindra XUV500"),
  ("xuv300", "Mahindra XUV300"),
  ("bolero", "Mahindra Bolero"),
  ("nexon", "Tata Nexon"),
  ("harrier", "Tata Harrier"),
  ("safari", "Tata Safari"),
  ("tiago", "Tata Tiago"),
  ("nano", "Tata Nano"),
  ("altroz", "Tata Altroz"),
  ("ambassador", "Hindustan Motors Ambassador"),
  ("contessa", "Hindustan Motors Contessa"),
  ("gurkha", "Force Motors Gurkha")]

/-- The secondary text pass: destructure the mapped "Brand Model" string into
its first two words (`const [specificBrand, specificModel] = v.split(' ')`)
and filter for exact (lower-cased) brand equality plus model substring. -/
def specificModelFilter (mapped : String) (cars : List Car) : List Car :=
  let specificBrand := (wordsOf mapped).getD 0 ""
  let specificModel := (wordsOf mapped).getD 1 ""
  cars.filter fun car =>
    strLower car.brand == strLower specificBrand
      && strContains (strLower car.model) (strLower specificModel)

/-- The text-query stage: primary substring pass, then (only when it is
empty) the specific-models secondary pass. -/
def textStage (query : String) (cars : List Car) : List Car :=
  let searchTerm := strTrim (strLower query)
  let filtered := cars.filter (matchesText searchTerm)
  if filtered.isEmpty then
    match specificModels.lookup searchTerm with
    | some mapped => specificModelFilter mapped cars
    | none => filtered
  else filtered

/-- Stage 1 wrapper: the text stage runs only when a non-empty query string
was given (`if (query)`). -/
def queryFilter (query : Option String) (cars : List Car) : List Car :=
  match query with
  | none => cars
  | some q => if q = "" then cars else textStage q cars

/-- Stage 2: brand filter (`brands.includes(car.brand)`), skipped when no
brand was requested. -/
def brandFilter (brands : List String) (cars : List Car) : List Car :=
  if brands.isEmpty then cars else cars.filter fun car => brands.contains car.brand

/-- Stage 3a: minimum-price filter (`car.price >= minPrice`). -/
def minPriceFilter (minPrice : Option Int) (cars : List Car) : List Car :=
  match minPrice with
  | none => cars
  | some m => cars.filter fun car => decide (m ≤ car.price)

/-- Stage 3b: maximum-price filter (`car.price <= maxPrice`). -/
def maxPriceFilter (maxPrice : Option Int) (cars : List Car) : List Car :=
  match maxPrice with
  | none => cars
  | some m => cars.filter fun car => decide (car.price ≤ m)

/-- Stage 4: fuel-type filter. -/
def fuelTypeFilter (fts : List String) (cars : List Car) : List Car :=
  if fts.isEmpty then cars else cars.filter fun car => fts.contains car.fuelType

/-- Stage 5: exact seating-capacity filter. -/
def seatingFilter (sc : Option Nat) (cars : List Car) : List Car :=
  match sc with
  | none => cars
  | some n => cars.filter fun car => car.seatingCapacity == n

/-- Stage 6: body-type filter (`car.bodyType && bodyTypes.includes(...)`);
a null or empty-string body type is falsy and never passes. -/
def bodyTypeFilter (bts : List String) (cars : List Car) : List Car :=
  if bts.isEmpty then cars
  else
    cars.filter fun car =>
      match car.bodyType with
      | some bt => if bt = "" then false else bts.contains bt
      | none => false

/-- The filter chain of `searchCars` in source order: text, brands, min
price, max price, fuel, seating, body type. -/
def applyFilters (p : SearchParams) (cars : List Car) : List Car :=
  bodyTypeFilter p.bodyTypes
    (seatingFilter p.seatingCapacity
      (fuelTypeFilter p.fuelTypes
        (maxPriceFilter p.maxPrice
          (minPriceFilter p.minPrice
            (brandFilter p.brands
              (queryFilter p.query cars))))))

/-- Comparison key of `filteredCars.sort((a, b) => a.price - b.price)`. -/
def priceLE (a b : Car) : Prop := a.price ≤ b.price

instance : DecidableRel priceLE := fun a b => inferInstanceAs (Decidable (a.price ≤ b.price))

instance : IsTotal Car priceLE := ⟨fun a b => Int.le_total a.price b.price⟩

instance : IsTrans Car priceLE := ⟨fun _ _ _ => Int.le_trans⟩

/-- JS `Array.prototype.sort` is a stable sort; a stable sort by a total
preorder is a unique function, modelled by stable insertion sort. -/
def sortByPrice (cars : List Car) : List Car :=
  List.insertionSort priceLE cars

/-- The filtered and sorted list just before pagination. -/
def prePagination (p : SearchParams) (cars : List Car) : List Car :=
  sortByPrice (applyFilters p cars)

/-- Filter, sort and paginate a car collection:
`filteredCars.slice(offset, offset + limit)`. -/
def searchCarsWith (p : SearchParams) (cars : List Car) : List Car :=
  ((prePagination p cars).drop p.offset).take p.limit

/-- `searchCars`: the upstream transport either yields raw records (`some`)
that are mapped with their index, or fails (`none`) and the fallback
generator supplies the collection; then the filter pipeline runs. -/
def searchCars (p : SearchParams) (upstream : Option (List ApiCar))
    (currentYear : Int) (rng : Nat → RandDraw) : List Car :=
  let cars :=
    match upstream with
    | some apiCars => indexedCars rng apiCars
    | none => fallbackCars p.brands p.bodyTypes currentYear rng
  searchCarsWith p cars

/-- `CACHE_EXPIRY = 15 * 60 * 1000` milliseconds. -/
def CACHE_EXPIRY : Nat := 15 * 60 * 1000

/-- One cache slot: `{timestamp, data}`. -/
structure CacheEntry (α : Type) where
  timestamp : Nat
  data : α

/-- The process-wide cache object, keyed by fully-qualified request URL.
Insertion prepends; lookup takes the most recent binding, which models
overwriting a JS object property. -/
abbrev Cache (α : Type) := List (String × CacheEntry α)

/-- `isCacheValid(key)`: the key is present and fresher than the TTL. -/
def isCacheValid (cache : Cache α) (now : Nat) (key : String) : Bool :=
  match cache.lookup key with
  | none => false
  | some e => decide (now - e.timestamp < CACHE_EXPIRY)

/-- What one `fetchFromAPI` call produced: the payload (or `none` when the
upstream failed and no valid cache entry existed), the cache afterwards, and
whether the upstream transport was invoked. -/
structure FetchResult (α : Type) where
  result : Option α
  cache : Cache α
  invokedUpstream : Bool

/-- `fetchFromAPI`: serve a valid cache entry without touching the upstream;
otherwise invoke the upstream and cache a successful payload under the
request URL with the current time. -/
def fetchFromAPI (cache : Cache α) (now : Nat) (url : String)
    (upstream : Option α) : FetchResult α :=
  if isCacheValid cache now url then
    { result := (cache.lookup url).map CacheEntry.data
      cache := cache
      invokedUpstream := false }
  else
    match upstream with
    | some d =>
        { result := some d
          cache := (url, ⟨now, d⟩) :: cache
          invokedUpstream := true }
    | none => { result := none, cache := cache, invokedUpstream := true }

/-- The limit/offset part of the zod `searchSchema` declared by
`GET /api/cars/search` in `routes.ts`: limit in [1, 50], offset ≥ 0,
both optional. -/
def searchSchemaAccepts (limit offset : Option Int) : Bool :=
  (match limit with
    | none => true
    | some l => decide (1 ≤ l) && decide (l ≤ 50))
  && (match offset with
      | none => true
      | some o => decide (0 ≤ o))

/-- The limit the handler actually passes to `searchCars`:
`req.query.limit ? Number(req.query.limit) : 10`, with no validation. -/
def searchRouteLimit (limit : Option Int) : Int := limit.getD 10

/-- The offset the handler actually passes to `searchCars`:
`req.query.offset ? Number(req.query.offset) : 0`, with no validation. -/
def searchRouteOffset (offset : Option Int) : Int := offset.getD 0

/-- The direct-fetch success branch of `getCarById`: the raw record fetched
from `/car/:id` is handed to the mapper with the requested id as the index
(`return mapApiCarToCar(car, id)`). -/
def getCarByIdDirect (id : Nat) (fetched : ApiCar) (r : RandDraw) : Car :=
  mapApiCarToCar fetched id r

/-- The identity of a car record a run of the generator is deterministic
about: its (brand, model, year) triple. -/
def carTriple (c : Car) : String × String × Int :=
  (c.brand, c.model, c.year)

/-! ## Helper lemmas -/

theorem mapApiCarToCar_brand (a : ApiCar) (i : Nat) (r : RandDraw) :
    (mapApiCarToCar a i r).brand = a.make := rfl

theorem mapApiCarToCar_model (a : ApiCar) (i : Nat) (r : RandDraw) :
    (mapApiCarToCar a i r).model = a.model := rfl

theorem mapApiCarToCar_year (a : ApiCar) (i : Nat) (r : RandDraw) :
    (mapApiCarToCar a i r).year = a.year := rfl

theorem mapApiCarToCar_bodyType (a : ApiCar) (i : Nat) (r : RandDraw) :
    (mapApiCarToCar a i r).bodyType = typeOrNull a.type := rfl

theorem mapApiCarToCar_id (a : ApiCar) (i : Nat) (r : RandDraw) :
    (mapApiCarToCar a i r).id = i + 1 := rfl

theorem mapApiCarToCar_price (a : ApiCar) (i : Nat) (r : RandDraw) :
    (mapApiCarToCar a i r).price
      = 10000 + (a.year - 2000) * 1000 + ((r.priceRand % 5000 : Nat) : Int) := rfl

theorem carTriple_mapApiCarToCar (a : ApiCar) (i : Nat) (r : RandDraw) :
    carTriple (mapApiCarToCar a i r) = (a.make, a.model, a.year) := rfl

theorem map_carTriple_indexedCarsFrom (rng : Nat → RandDraw) :
    ∀ (raws : List ApiCar) (n : Nat),
      (indexedCarsFrom rng n raws).map carTriple
        = raws.map fun a => (a.make, a.model, a.year) := by
  intro raws
  induction raws with
  | nil => intro n; rfl
  | cons a raws ih =>
      intro n
      simp [indexedCarsFrom, carTriple_mapApiCarToCar, ih (n + 1)]

theorem map_carTriple_fallbackCars (brands bodyTypes : List String) (y : Int)
    (rng : Nat → RandDraw) :
    (fallbackCars brands bodyTypes y rng).map carTriple
      = (fallbackRaw brands bodyTypes y).map fun a => (a.make, a.model, a.year) :=
  map_carTriple_indexedCarsFrom rng _ 0

theorem mem_indexedCarsFrom {rng : Nat → RandDraw} :
    ∀ {raws : List ApiCar} {n : Nat} {c : Car}, c ∈ indexedCarsFrom rng n raws →
      ∃ a ∈ raws, ∃ i, c = mapApiCarToCar a i (rng i) := by
  intro raws
  induction raws with
  | nil => intro n c h; simp [indexedCarsFrom] at h
  | cons a raws ih =>
      intro n c h
      rcases List.mem_cons.1 h with h | h
      · exact ⟨a, List.mem_cons_self .., n, h⟩
      · rcases ih h with ⟨b, hb, i, hi⟩
        exact ⟨b, List.mem_cons_of_mem _ hb, i, hi⟩

theorem mem_fallbackRaw {brands bodyTypes : List String} {y : Int} {a : ApiCar}
    (h : a ∈ fallbackRaw brands bodyTypes y) :
    (a.year = y ∧ a.type = fallbackType bodyTypes 0)
      ∨ (a.year = y - 1 ∧ a.type = fallbackType bodyTypes 1)
      ∨ (a.year = y - 2 ∧ a.type = fallbackType bodyTypes 2) := by
  unfold fallbackRaw at h
  simp only [List.mem_flatMap, List.mem_map, fallbackYears, List.mem_cons,
    List.not_mem_nil, or_false] at h
  rcases h with ⟨brand, hb, model, hm, yi, hyi, rfl⟩
  rcases hyi with h | h | h <;> subst h <;> simp

theorem textStage_sublist (q : String) (cars : List Car) :
    List.Sublist (textStage q cars) cars := by
  unfold textStage
  dsimp only
  split
  · split
    · exact List.filter_sublist cars
    · exact List.filter_sublist cars
  · exact List.filter_sublist cars

theorem queryFilter_sublist (q : Option String) (cars : List Car) :
    List.Sublist (queryFilter q cars) cars := by
  unfold queryFilter
  match q with
  | none => exact List.Sublist.refl cars
  | some s =>
      dsimp only
      split
      · exact List.Sublist.refl cars
      · exact textStage_sublist s cars

theorem brandFilter_sublist (brands : List String) (cars : List Car) :
    List.Sublist (brandFilter brands cars) cars := by
  unfold brandFilter
  split
  · exact List.Sublist.refl cars
  · exact List.filter_sublist cars

theorem minPriceFilter_sublist (m : Option Int) (cars : List Car) :
    List.Sublist (minPriceFilter m cars) cars := by
  unfold minPriceFilter
  match m with
  | none => exact List.Sublist.refl cars
  | some m => exact List.filter_sublist cars

theorem maxPriceFilter_sublist (m : Option Int) (cars : List Car) :
    List.Sublist (maxPriceFilter m cars) cars := by
  unfold maxPriceFilter
  match m with
  | none => exact List.Sublist.refl cars
  | some m => exact List.filter_sublist cars

theorem fuelTypeFilter_sublist (fts : List String) (cars : List Car) :
    List.Sublist (fuelTypeFilter fts cars) cars := by
  unfold fuelTypeFilter
  split
  · exact List.Sublist.refl cars
  · exact List.filter_sublist cars

theorem seatingFilter_sublist (sc : Option Nat) (cars : List Car) :
    List.Sublist (seatingFilter sc cars) cars := by
  unfold seatingFilter
  match sc with
  | none => exact List.Sublist.refl cars
  | some n => exact List.filter_sublist cars

theorem bodyTypeFilter_sublist (bts : List String) (cars : List Car) :
    List.Sublist (bodyTypeFilter bts cars) cars := by
  unfold bodyTypeFilter
  split
  · exact List.Sublist.refl cars
  · exact List.filter_sublist cars

theorem applyFilters_sublist (p : SearchParams) (cars : List Car) :
    List.Sublist (applyFilters p cars) cars := by
  unfold applyFilters
  exact ((((((bodyTypeFilter_sublist _ _).trans
    (seatingFilter_sublist _ _)).trans
    (fuelTypeFilter_sublist _ _)).trans
    (maxPriceFilter_sublist _ _)).trans
    (minPriceFilter_sublist _ _)).trans
    (brandFilter_sublist _ _)).trans
    (queryFilter_sublist _ _)

theorem mem_applyFilters_of_mem_searchCarsWith {p : SearchParams} {cars : List Car}
    {c : Car} (h : c ∈ searchCarsWith p cars) : c ∈ applyFilters p cars := by
  unfold searchCarsWith prePagination sortByPrice at h
  exact ((List.perm_insertionSort priceLE _).mem_iff).1
    (List.mem_of_mem_drop (List.mem_of_mem_take h))

theorem mem_maxPriceStage_of_mem_applyFilters {p : SearchParams} {cars : List Car}
    {c : Car} (h : c ∈ applyFilters p cars) :
    c ∈ maxPriceFilter p.maxPrice
      (minPriceFilter p.minPrice (brandFilter p.brands (queryFilter p.query cars))) := by
  unfold applyFilters at h
  exact (fuelTypeFilter_sublist _ _).subset
    ((seatingFilter_sublist _ _).subset ((bodyTypeFilter_sublist _ _).subset h))

theorem minPrice_le_of_mem {m : Int} {cars : List Car} {c : Car}
    (h : c ∈ minPriceFilter (some m) cars) : m ≤ c.price := by
  simp only [minPriceFilter, List.mem_filter, decide_eq_true_eq] at h
  exact h.2

theorem le_maxPrice_of_mem {m : Int} {cars : List Car} {c : Car}
    (h : c ∈ maxPriceFilter (some m) cars) : c.price ≤ m := by
  simp only [maxPriceFilter, List.mem_filter, decide_eq_true_eq] at h
  exact h.2

theorem prePagination_nodup {p : SearchParams} {cars : List Car}
    (h : cars.Nodup) : (prePagination p cars).Nodup := by
  unfold prePagination sortByPrice
  exact ((List.perm_insertionSort priceLE _).nodup_iff).2
    ((applyFilters_sublist p cars).nodup h)

theorem isCacheValid_iff {α : Type} (cache : Cache α) (now : Nat) (key : String) :
    isCacheValid cache now key = true
      ↔ ∃ e, cache.lookup key = some e ∧ now - e.timestamp < CACHE_EXPIRY := by
  unfold isCacheValid
  cases h : cache.lookup key with
  | none => simp
  | some e => simp [decide_eq_true_eq]

theorem fetchFromAPI_invoked {α : Type} (cache : Cache α) (now : Nat) (url : String)
    (upstream : Option α) :
    (fetchFromAPI cache now url upstream).invokedUpstream = false
      ↔ isCacheValid cache now url = true := by
  unfold fetchFromAPI
  by_cases hv : isCacheValid cache now url
  · simp [hv]
  · cases upstream <;> simp [hv]

/-! ## The claims -/

/-- A fixed random stream (every draw zero), used to instantiate theorems at
concrete inputs. -/
def rngZero : Nat → RandDraw := fun _ => ⟨0, 0, 0, 0⟩

/-- A random stream that gives the car generated at position 2 (the
Toyota Camry of the oldest year) the largest possible price draw and every
other car the smallest. -/
def rngBump : Nat → RandDraw := fun i => if i = 2 then ⟨4999, 0, 0, 0⟩ else ⟨0, 0, 0, 0⟩

/-- A concrete car used by witnesses: a mapped Ford Mustang coupe. -/
def mustangCoupe : Car :=
  mapApiCarToCar ⟨"Ford", "Mustang", 2024, some "Coupe"⟩ 0 (rngZero 0)

/-- A second concrete car used by witnesses. -/
def camrySedan : Car :=
  mapApiCarToCar ⟨"Toyota", "Camry", 2023, some "Sedan"⟩ 1 (rngZero 1)

/-- Concrete search parameters used by the C1 witness: a price window. -/
def priceWindowParams : SearchParams := { minPrice := some 0, maxPrice := some 1000000 }

/-- C1: for every search invocation with minPrice and/or maxPrice given
(minPrice ≤ maxPrice when both are), every car record returned by
`searchCars` has price ≥ minPrice (when given) and ≤ maxPrice (when
given).  Stated over the pipeline applied to an arbitrary collection, which
covers both the upstream-mapped and the fallback-generated paths. -/
theorem searchCars_price_within_bounds (p : SearchParams) (cars : List Car)
    (_hwindow : ∀ m mx, p.minPrice = some m → p.maxPrice = some mx → m ≤ mx) :
    ∀ c ∈ searchCarsWith p cars,
      (∀ m, p.minPrice = some m → m ≤ c.price)
        ∧ (∀ mx, p.maxPrice = some mx → c.price ≤ mx) := by
  intro c hc
  have h1 := mem_applyFilters_of_mem_searchCarsWith hc
  have h2 := mem_maxPriceStage_of_mem_applyFilters h1
  constructor
  · intro m hm
    have h3 : c ∈ minPriceFilter p.minPrice
        (brandFilter p.brands (queryFilter p.query cars)) :=
      (maxPriceFilter_sublist _ _).subset h2
    rw [hm] at h3
    exact minPrice_le_of_mem h3
  · intro mx hmx
    rw [hmx] at h2
    exact le_maxPrice_of_mem h2

/-- Witness for C1 at a concrete input: the window [0, 1000000] is
satisfiable and the returned Mustang's price lies inside it. -/
theorem searchCars_price_within_bounds_witness :
    (0 : Int) ≤ mustangCoupe.price ∧ mustangCoupe.price ≤ 1000000 := by
  have h := searchCars_price_within_bounds priceWindowParams [mustangCoupe]
    (fun m mx hm hmx => by
      simp only [priceWindowParams, Option.some.injEq] at hm hmx
      omega)
    mustangCoupe (by decide)
  exact ⟨h.1 0 rfl, h.2 1000000 rfl⟩

/-- C2 (amended): when the upstream call fails, the fallback generator
produces, for exactly the requested brands (or the fixed popular-brands list
when none are requested), one entry per model of the static brand→models
table (none for an unrecognized brand) for each of the current year and the
two preceding years; each entry's body type is the first requested body type
when a non-empty one is provided — a requested empty-string body type is
coerced to null by the mapper's `|| null` — otherwise Sedan for an even year
index and SUV for an odd one. -/
theorem fallback_generator_shape (brands bodyTypes : List String) (y : Int)
    (rng : Nat → RandDraw) :
    (fallbackCars brands bodyTypes y rng).map carTriple
        = (if brands = [] then popularBrands else brands).flatMap
            (fun b => (fallbackModels b).flatMap fun m =>
              [(b, m, y), (b, m, y - 1), (b, m, y - 2)])
      ∧ (∀ bt rest, bodyTypes = bt :: rest → bt ≠ "" →
          ∀ c ∈ fallbackCars brands bodyTypes y rng, c.bodyType = some bt)
      ∧ (∀ rest, bodyTypes = "" :: rest →
          ∀ c ∈ fallbackCars brands bodyTypes y rng, c.bodyType = none)
      ∧ (bodyTypes = [] →
          ∀ c ∈ fallbackCars brands bodyTypes y rng,
            (c.year = y → c.bodyType = some "Sedan")
              ∧ (c.year = y - 1 → c.bodyType = some "SUV")
              ∧ (c.year = y - 2 → c.bodyType = some "Sedan")) := by
  refine ⟨?_, ?_, ?_, ?_⟩
  · rw [map_carTriple_fallbackCars]
    unfold fallbackRaw
    cases brands with
    | nil => simp [fallbackYears, List.map_flatMap, List.map_map]
    | cons b bs => simp [fallbackYears, List.map_flatMap, List.map_map]
  · intro bt rest hbt hne c hc
    rcases mem_indexedCarsFrom hc with ⟨a, ha, i, rfl⟩
    rcases mem_fallbackRaw ha with ⟨hy, hty⟩ | ⟨hy, hty⟩ | ⟨hy, hty⟩ <;>
      (rw [mapApiCarToCar_bodyType, hty, hbt]; simp [typeOrNull, fallbackType, hne])
  · intro rest hbt c hc
    rcases mem_indexedCarsFrom hc with ⟨a, ha, i, rfl⟩
    rcases mem_fallbackRaw ha with ⟨hy, hty⟩ | ⟨hy, hty⟩ | ⟨hy, hty⟩ <;>
      (rw [mapApiCarToCar_bodyType, hty, hbt]; rfl)
  · intro hbt c hc
    subst hbt
    rcases mem_indexedCarsFrom hc with ⟨a, ha, i, rfl⟩
    have hcy : (mapApiCarToCar a i (rng i)).year = a.year := rfl
    rcases mem_fallbackRaw ha with ⟨hy, hty⟩ | ⟨hy, hty⟩ | ⟨hy, hty⟩ <;>
      rw [mapApiCarToCar_bodyType, hty] <;>
      refine ⟨fun hq => ?_, fun hq => ?_, fun hq => ?_⟩ <;>
      rw [hcy, hy] at hq <;>
      first | rfl | (exfalso; omega)

/-- The first car the fallback generator produces for brands=["Tesla"],
bodyTypes=["", "SUV"] — the body-type list the route builds from the query
string `bodyTypes=,SUV`. -/
def emptyBodyTypeCar : Car :=
  mapApiCarToCar ⟨"Tesla", "Model 3", 2025, some ""⟩ 0 (rngZero 0)

/-- C2 counterexample: with requested body types ["", "SUV"] (reachable as
`GET /api/cars/search?bodyTypes=,SUV`), the generator hands the empty first
body type to the mapper, whose `apiCar.type || null` coercion stores null —
not the requested body type — refuting "each entry's body type is the single
requested body type when one is provided" at this input. -/
theorem fallback_empty_bodyType_is_null :
    emptyBodyTypeCar ∈ fallbackCars ["Tesla"] ["", "SUV"] 2025 rngZero
      ∧ emptyBodyTypeCar.bodyType = none
      ∧ emptyBodyTypeCar.bodyType ≠ some "" := by
  decide

/-- C3: a `fetchFromAPI` call skips the upstream transport and serves the
stored payload exactly when a cache entry for the URL exists and is fresher
than 15 minutes; a miss caches the payload, so an identical fetch at least
15 minutes later invokes the upstream again (and one within the window does
not). -/
theorem cache_validity_and_expiry (α : Type) (cache : Cache α) (now : Nat)
    (url : String) (upstream : Option α) :
    ((fetchFromAPI cache now url upstream).invokedUpstream = false
        ↔ ∃ e, cache.lookup url = some e ∧ now - e.timestamp < CACHE_EXPIRY)
      ∧ (∀ e, cache.lookup url = some e → now - e.timestamp < CACHE_EXPIRY →
          (fetchFromAPI cache now url upstream).result = some e.data
            ∧ (fetchFromAPI cache now url upstream).invokedUpstream = false)
      ∧ (∀ d : α, cache.lookup url = none →
          ∀ now2 : Nat, ∀ upstream2 : Option α, CACHE_EXPIRY ≤ now2 - now →
            (fetchFromAPI (fetchFromAPI cache now url (some d)).cache
              now2 url upstream2).invokedUpstream = true)
      ∧ (∀ d : α, cache.lookup url = none →
          ∀ now2 : Nat, ∀ upstream2 : Option α, now2 - now < CACHE_EXPIRY →
            (fetchFromAPI (fetchFromAPI cache now url (some d)).cache
              now2 url upstream2).invokedUpstream = false) := by
  have hmiss : ∀ d : α, cache.lookup url = none →
      (fetchFromAPI cache now url (some d)).cache = (url, ⟨now, d⟩) :: cache := by
    intro d hnone
    have hv : isCacheValid cache now url = false := by
      unfold isCacheValid
      rw [hnone]
    unfold fetchFromAPI
    rw [hv]
    rfl
  have hlook : ∀ d : α, List.lookup url ((url, (⟨now, d⟩ : CacheEntry α)) :: cache)
      = some ⟨now, d⟩ := by
    intro d
    simp [List.lookup]
  refine ⟨?_, ?_, ?_, ?_⟩
  · rw [fetchFromAPI_invoked, isCacheValid_iff]
  · intro e he ht
    have hv : isCacheValid cache now url = true :=
      (isCacheValid_iff cache now url).2 ⟨e, he, ht⟩
    unfold fetchFromAPI
    rw [hv]
    simp [he]
  · intro d hnone now2 upstream2 hexp
    rw [hmiss d hnone]
    have hv : isCacheValid ((url, ⟨now, d⟩) :: cache) now2 url = false := by
      unfold isCacheValid
      rw [hlook d]
      simp only [decide_eq_false_iff_not]
      omega
    unfold fetchFromAPI
    cases upstream2 <;> rw [hv] <;> rfl
  · intro d hnone now2 upstream2 hfresh
    rw [hmiss d hnone]
    have hv : isCacheValid ((url, ⟨now, d⟩) :: cache) now2 url = true := by
      unfold isCacheValid
      rw [hlook d]
      simpa using hfresh
    unfold fetchFromAPI
    rw [hv]
    rfl

/-- C4 (code_bug evidence): the zod `searchSchema` declared in the
`GET /api/cars/search` handler would reject limit=100, yet the handler never
applies it — it forwards limit 100 (and any other out-of-range value)
straight to `searchCars`, while the defaults 10/0 do apply. -/
theorem search_route_limit_unvalidated :
    searchSchemaAccepts (some 100) (some 0) = false
      ∧ searchRouteLimit (some 100) = 100
      ∧ searchRouteLimit none = 10
      ∧ searchRouteOffset none = 0 := by
  decide

set_option maxRecDepth 100000 in
set_option maxHeartbeats 16000000 in
/-- C5: when the primary substring pass yields zero records and the
lower-cased trimmed query is a key of the static specific-models table, the
text stage returns exactly the records whose brand equals the mapped brand
(case-insensitively) and whose model contains the mapped model as a
substring — the mapped pair being the first two words of the table entry —
and in particular `query=mustang` over the fallback catalog returns only
Ford Mustang records. -/
theorem specific_model_fallback :
    (∀ (q : String) (cars : List Car) (mapped : String),
        cars.filter (matchesText (strTrim (strLower q))) = [] →
        specificModels.lookup (strTrim (strLower q)) = some mapped →
        textStage q cars = specificModelFilter mapped cars)
      ∧ (∀ c ∈ searchCars { query := some "mustang" } none 2025 rngZero,
          c.brand = "Ford" ∧ c.model = "Mustang") := by
  constructor
  · intro q cars mapped hempty hlook
    unfold textStage
    dsimp only
    rw [hempty, hlook]
    rfl
  · decide

/-- C6: pagination is the slice [offset, offset + limit) of the filtered and
sorted list: the limit-10 pages at offsets 0 and 10 are disjoint and
concatenate to the first 20 records of the unpaginated list. -/
theorem pagination_slices (p : SearchParams) (cars : List Car) (h : cars.Nodup) :
    List.Disjoint (searchCarsWith { p with limit := 10, offset := 0 } cars)
        (searchCarsWith { p with limit := 10, offset := 10 } cars)
      ∧ searchCarsWith { p with limit := 10, offset := 0 } cars
          ++ searchCarsWith { p with limit := 10, offset := 10 } cars
        = (prePagination p cars).take 20
      ∧ (∀ (q : SearchParams) (cs : List Car),
          searchCarsWith q cs = ((prePagination q cs).drop q.offset).take q.limit) := by
  have e0 : searchCarsWith { p with limit := 10, offset := 0 } cars
      = (prePagination p cars).take 10 := rfl
  have e1 : searchCarsWith { p with limit := 10, offset := 10 } cars
      = ((prePagination p cars).drop 10).take 10 := rfl
  have hnd : (prePagination p cars).Nodup := prePagination_nodup h
  have hdisj : List.Disjoint ((prePagination p cars).take 10)
      ((prePagination p cars).drop 10) :=
    List.disjoint_take_drop hnd (Nat.le_refl 10)
  refine ⟨?_, ?_, fun q cs => rfl⟩
  · rw [e0, e1]
    intro a ha hb
    exact hdisj ha (List.mem_of_mem_take hb)
  · rw [e0, e1]
    exact (List.take_add (prePagination p cars) 10 10).symm

/-- Witness for C6 at a concrete input: a two-car duplicate-free collection
gives disjoint pages. -/
theorem pagination_slices_witness :
    List.Disjoint (searchCarsWith { limit := 10, offset := 0 } [mustangCoupe, camrySedan])
      (searchCarsWith { limit := 10, offset := 10 } [mustangCoupe, camrySedan]) :=
  (pagination_slices {} [mustangCoupe, camrySedan] (by decide)).1

/-- C7: a fallback-path search result is sorted ascending by price, and the
caller-requested sortBy/sortOrder values do not influence the result at
all. -/
theorem fallback_sorted_by_price (p : SearchParams) (y : Int)
    (rng : Nat → RandDraw) (sb so : Option String) :
    List.Sorted priceLE (searchCars p none y rng)
      ∧ searchCars { p with sortBy := sb, sortOrder := so } none y rng
        = searchCars p none y rng := by
  refine ⟨?_, rfl⟩
  have hs : List.Sorted priceLE
      (prePagination p (fallbackCars p.brands p.bodyTypes y rng)) :=
    List.sorted_insertionSort priceLE _
  exact List.Pairwise.sublist
    ((List.take_sublist _ _).trans (List.drop_sublist _ _)) hs

/-- C8 (amended): with the upstream unavailable, the (brand, model, year)
triples of the generated fallback catalog do not depend on the random
draws; price, fuel type, transmission and mileage may differ. -/
theorem fallback_triples_deterministic (brands bodyTypes : List String) (y : Int)
    (rng1 rng2 : Nat → RandDraw) :
    (fallbackCars brands bodyTypes y rng1).map carTriple
      = (fallbackCars brands bodyTypes y rng2).map carTriple := by
  rw [map_carTriple_fallbackCars, map_carTriple_fallbackCars]

set_option maxRecDepth 10000 in
set_option maxHeartbeats 4000000 in
/-- C8 counterexample: two runs of `searchCars` itself (default limit 10) on
brands=[Toyota] with different random draws return pages whose
(brand, model, year) triple sets differ — random prices decide which ties
survive the sort-and-truncate. -/
theorem searchCars_triples_differ_across_runs :
    (("Toyota", "Camry", (2023 : Int)) ∈
        ((searchCars { brands := ["Toyota"] } none 2025 rngZero).map carTriple))
      ∧ ¬ (("Toyota", "Camry", (2023 : Int)) ∈
        ((searchCars { brands := ["Toyota"] } none 2025 rngBump).map carTriple)) := by
  decide

/-- C9 (amended): a mapped record's price is
10000 + (year − 2000) × 1000 + r with 0 ≤ r < 5000, and it is non-negative
whenever the input year is at least 1990 (not for every year). -/
theorem mapped_price_formula (a : ApiCar) (i : Nat) (r : RandDraw) :
    (∃ rf : Nat, rf < 5000
        ∧ (mapApiCarToCar a i r).price = 10000 + (a.year - 2000) * 1000 + rf)
      ∧ (1990 ≤ a.year → 0 ≤ (mapApiCarToCar a i r).price) := by
  constructor
  · exact ⟨r.priceRand % 5000, Nat.mod_lt _ (by omega), mapApiCarToCar_price a i r⟩
  · intro hy
    rw [mapApiCarToCar_price]
    have : (0 : Int) ≤ ((r.priceRand % 5000 : Nat) : Int) := Int.natCast_nonneg _
    omega

/-- C9 counterexample: a 1989 record with the smallest draw maps to a
negative price, refuting "non-negative for every input year". -/
theorem mapped_price_negative_for_1989 :
    (mapApiCarToCar ⟨"Ford", "Mustang", 1989, none⟩ 0 ⟨0, 0, 0, 0⟩).price < 0 := by
  decide

/-- C10: when the direct upstream fetch succeeds, `getCarById(id)` returns a
record whose id field is id + 1 — never the id that was asked for — because
the requested id is passed to the mapper as a zero-based index. -/
theorem getCarById_direct_shifts_id (id : Nat) (a : ApiCar) (r : RandDraw) :
    (getCarByIdDirect id a r).id = id + 1 ∧ (getCarByIdDirect id a r).id ≠ id := by
  refine ⟨rfl, ?_⟩
  show id + 1 ≠ id
  omega

end CarApi
